import Mathlib

/-!
Verification of the AESS exoplanet dashboard (src/aess.py) against its
natural-language specification.

The development shallowly embeds the data acquisition-and-normalization
pipeline (NASADataFetcher), the Exoplanet Encyclopedia filter block, the
Planet Search page, and the transit light-curve simulator.  Floating-point
values produced by the service or by numpy's random generator are modelled
as rationals (every IEEE double is a rational number); the simulator's
closed-form formula, which involves pi and exp, is modelled over the reals.
-/

namespace AESS

/-- A raw cell of the tabular service response as held in the pandas
DataFrame after read_csv: either missing (NaN), a string, or a number. -/
inductive RawCell where
  | missing : RawCell
  | str : String → RawCell
  | num : ℚ → RawCell
deriving DecidableEq

/-- Value of a list of decimal digit characters. -/
def digitsVal (ds : List Char) : Nat :=
  ds.foldl (fun n c => 10 * n + (c.toNat - 48)) 0

/-- Numeric parsing of a string cell, modelling the parse performed by
pandas to_numeric(errors="coerce") for the optional-sign decimal formats
exercised by this system; parsing failure is none (pandas NaN). -/
def parseDecimal (s : String) : Option ℚ :=
  let cs := s.data
  let signAndRest : Bool × List Char :=
    match cs with
    | c :: rest =>
        if c = '-' then (true, rest)
        else if c = '+' then (false, rest)
        else (false, cs)
    | [] => (false, [])
  let body := signAndRest.2
  let intPart := body.takeWhile Char.isDigit
  let rest2 := body.dropWhile Char.isDigit
  match rest2 with
  | [] =>
      if intPart.isEmpty then none
      else some ((if signAndRest.1 then -1 else 1) * (digitsVal intPart : ℚ))
  | c :: frac =>
      if c = '.' ∧ frac.all Char.isDigit ∧ (intPart ≠ [] ∨ frac ≠ []) then
        some ((if signAndRest.1 then -1 else 1) *
          ((digitsVal intPart : ℚ) + (digitsVal frac : ℚ) / (10 : ℚ) ^ frac.length))
      else none

/-- pd.to_numeric(cell, errors="coerce"): numbers pass through, strings are
parsed, anything unparseable (and NaN itself) becomes NaN (none). -/
def toNumeric : RawCell → Option ℚ
  | .missing => none
  | .str s => parseDecimal s
  | .num q => some q

/-- Truncation toward zero, modelling numpy astype(int) on a float column. -/
def truncInt (q : ℚ) : Int := if 0 ≤ q then ⌊q⌋ else ⌈q⌉

/-- One row of the raw catalog table handed to NASADataFetcher._clean_data.
String-typed columns (pl_name, hostname, discoverymethod) are Option String,
none standing for NaN; the coercible columns are raw cells.  The query also
selects ra and dec, but no code ever reads or transforms those two columns,
so they are omitted from the model. -/
structure RawRow where
  pl_name : Option String
  hostname : Option String
  discoverymethod : Option String
  disc_year : RawCell
  pl_orbper : RawCell
  pl_rade : RawCell
  pl_bmasse : RawCell
  pl_orbsmax : RawCell
  st_teff : RawCell
  st_rad : RawCell
  st_mass : RawCell
  sy_dist : RawCell
  pl_eqt : RawCell
  pl_insol : RawCell
deriving DecidableEq

/-- A normalized row as produced by _clean_data (and by the sample-data
fallback): numeric columns are float-or-NaN (Option ℚ), disc_year is an
integer after fillna(current year).astype(int). -/
structure ExoRow where
  pl_name : Option String
  hostname : Option String
  discoverymethod : Option String
  disc_year : Int
  pl_orbper : Option ℚ
  pl_rade : Option ℚ
  pl_bmasse : Option ℚ
  pl_orbsmax : Option ℚ
  st_teff : Option ℚ
  st_rad : Option ℚ
  st_mass : Option ℚ
  sy_dist : Option ℚ
  pl_eqt : Option ℚ
  pl_insol : Option ℚ
deriving DecidableEq

/-- Per-row effect of NASADataFetcher._clean_data: to_numeric coercion of the
numeric columns, then disc_year = to_numeric(disc_year).fillna(current
year).astype(int); pl_name, hostname and discoverymethod are untouched. -/
def cleanRow (currentYear : Int) (r : RawRow) : ExoRow :=
  { pl_name := r.pl_name
    hostname := r.hostname
    discoverymethod := r.discoverymethod
    disc_year :=
      match toNumeric r.disc_year with
      | some q => truncInt q
      | none => currentYear
    pl_orbper := toNumeric r.pl_orbper
    pl_rade := toNumeric r.pl_rade
    pl_bmasse := toNumeric r.pl_bmasse
    pl_orbsmax := toNumeric r.pl_orbsmax
    st_teff := toNumeric r.st_teff
    st_rad := toNumeric r.st_rad
    st_mass := toNumeric r.st_mass
    sy_dist := toNumeric r.sy_dist
    pl_eqt := toNumeric r.pl_eqt
    pl_insol := toNumeric r.pl_insol }

/-- NASADataFetcher._clean_data: coerce every numeric column, fill and
truncate disc_year, then df.dropna(subset=["pl_name", "hostname"]) — rows
whose pl_name or hostname cell is NaN are removed.  Row order is kept. -/
def clean_data (currentYear : Int) (df : List RawRow) : List ExoRow :=
  (df.map (cleanRow currentYear)).filter (fun r => r.pl_name.isSome && r.hostname.isSome)

/-- State of numpy's global random generator: the seed last installed by
np.random.seed together with the position reached in the stream of draws. -/
structure RngState where
  seed : Nat
  pos : Nat
deriving DecidableEq

/-- np.random.seed(n): discards the previous generator state entirely. -/
def npRandomSeed (n : Nat) (_ : RngState) : RngState := ⟨n, 0⟩

/-- np.random.normal(mean, std, size): returns the draw at each index of the
batch and the advanced generator state.  The underlying seeded
standard-normal stream is the parameter nv (seed → position → value); its
float outputs are modelled as rationals. -/
def npNormal (nv : Nat → Nat → ℚ) (mean std : ℚ) (size : Nat) (st : RngState) :
    (Nat → ℚ) × RngState :=
  (fun i => mean + std * nv st.seed (st.pos + i), ⟨st.seed, st.pos + size⟩)

/-- Shorthand for a sample row; every cell of the hard-coded sample table is
present (no NaN). -/
def mkSampleRow (name host method : String) (year : Int)
    (orbper rade bmasse orbsmax teff strad smass dist eqt insol : ℚ) : ExoRow :=
  { pl_name := some name
    hostname := some host
    discoverymethod := some method
    disc_year := year
    pl_orbper := some orbper
    pl_rade := some rade
    pl_bmasse := some bmasse
    pl_orbsmax := some orbsmax
    st_teff := some teff
    st_rad := some strad
    st_mass := some smass
    sy_dist := some dist
    pl_eqt := some eqt
    pl_insol := some insol }

/-- The hard-coded sample_data table of NASADataFetcher._generate_sample_data,
before the jitter loop. -/
def sampleBase : List ExoRow :=
  [ mkSampleRow "TRAPPIST-1e" "TRAPPIST-1" "Transit" 2017 6.099 0.92 0.69 0.029 2559.0 0.119 0.08 39.5 0.0 0.66
  , mkSampleRow "TRAPPIST-1f" "TRAPPIST-1" "Transit" 2017 9.206 1.04 0.69 0.038 2559.0 0.119 0.08 39.5 0.0 0.38
  , mkSampleRow "TRAPPIST-1g" "TRAPPIST-1" "Transit" 2017 12.353 1.13 1.34 0.046 2559.0 0.119 0.08 39.5 0.0 0.26
  , mkSampleRow "Kepler-186f" "Kepler-186" "Transit" 2014 129.944 1.17 1.44 0.432 3788.0 0.54 0.54 492.0 0.0 0.32
  , mkSampleRow "Proxima Cen b" "Proxima Centauri" "Radial Velocity" 2016 11.186 1.30 1.27 0.048 3042.0 0.14 0.12 4.2 0.0 0.65
  , mkSampleRow "GJ 667 C c" "GJ 667 C" "Radial Velocity" 2011 28.143 1.54 3.80 0.125 3600.0 0.33 0.33 6.8 0.0 0.90
  , mkSampleRow "HD 209458 b" "HD 209458" "Transit" 1999 3.524 14.80 69.10 0.047 6092.0 1.16 1.15 47.7 0.0 1.50
  , mkSampleRow "Kepler-22b" "Kepler-22" "Transit" 2011 289.862 2.10 4.50 0.849 5518.0 0.98 0.97 190.0 0.0 0.95
  , mkSampleRow "GJ 1214 b" "GJ 1214" "Transit" 2009 1.580 2.68 6.40 0.014 3026.0 0.21 0.15 14.6 0.0 1.20
  , mkSampleRow "55 Cnc e" "55 Cnc" "Radial Velocity" 2004 0.736 1.95 8.08 0.015 5172.0 0.94 0.91 12.3 0.0 2.10 ]

/-- NASADataFetcher._generate_sample_data: the fixed 10-row table above, then
np.random.seed(42) followed by, for each of pl_rade, pl_bmasse and pl_orbper
in that order, df[col] = df[col] * (1 + np.random.normal(0, 0.1, len(df))).
Returns the table together with the generator state after the three batches. -/
def generate_sample_data (nv : Nat → Nat → ℚ) (rng : RngState) : List ExoRow × RngState :=
  let st0 := npRandomSeed 42 rng
  let b1 := npNormal nv 0 (1/10) 10 st0
  let b2 := npNormal nv 0 (1/10) 10 b1.2
  let b3 := npNormal nv 0 (1/10) 10 b2.2
  ( sampleBase.mapIdx (fun i r =>
      { r with
        pl_rade := r.pl_rade.map (fun v => v * (1 + b1.1 i))
        pl_bmasse := r.pl_bmasse.map (fun v => v * (1 + b2.1 i))
        pl_orbper := r.pl_orbper.map (fun v => v * (1 + b3.1 i)) })
  , b3.2 )

/-- Outcome of one HTTP round trip to the tabular service, as observable by
the fetch code: a requests-level failure (timeout, connection error, or a
non-2xx status raised by raise_for_status), a body on which pd.read_csv
raises, or a successfully parsed list of rows (possibly empty). -/
inductive ServiceResponse (α : Type) where
  | netError : ServiceResponse α
  | malformed : ServiceResponse α
  | parsed : List α → ServiceResponse α

/-- NASADataFetcher.fetch_exoplanet_data: on a network failure or any other
exception the sample data is returned; on success, an empty DataFrame also
falls back to the sample data, and otherwise the parsed rows are cleaned. -/
def fetch_exoplanet_data (currentYear : Int) (nv : Nat → Nat → ℚ) (rng : RngState)
    (resp : ServiceResponse RawRow) : List ExoRow :=
  match resp with
  | .netError => (generate_sample_data nv rng).1
  | .malformed => (generate_sample_data nv rng).1
  | .parsed rows =>
      if rows.isEmpty then (generate_sample_data nv rng).1
      else clean_data currentYear rows

/-- The single-quote character, written via its code point so that the query
text below can be assembled without quote literals. -/
def sqChar : Char := Char.ofNat 39

/-- The single-quote as a one-character string. -/
def sq : String := String.mk [sqChar]

/-- The ADQL query text built by NASADataFetcher.search_planet_directly: the
Python f-string with search_term interpolated verbatim (twice) inside the
LIKE string literals.  Whitespace follows the source f-string. -/
def searchQuery (search_term : String) : String :=
  "\n            SELECT \n                pl_name, hostname, discoverymethod, disc_year,\n                pl_orbper, pl_rade, pl_bmasse, pl_orbsmax,\n                st_teff, st_rad, st_mass, sy_dist, pl_eqt\n            FROM pscomppars\n            WHERE LOWER(pl_name) LIKE LOWER(" ++
  sq ++ "%" ++ search_term ++ "%" ++ sq ++
  ")\n               OR LOWER(hostname) LIKE LOWER(" ++
  sq ++ "%" ++ search_term ++ "%" ++ sq ++
  ")\n            ORDER BY pl_name\n            "

/-- Structural skeleton of a query under the query language's string-literal
rules: the characters outside single-quoted literals, plus the delimiting
quotes themselves; literal contents are erased, and a doubled quote inside a
literal is the escaped quote character (content, not a delimiter).  The Bool
argument records whether scanning is currently inside a literal.  Two queries
with the same skeleton have the same structure outside string literals. -/
def querySkeleton : List Char → Bool → List Char
  | [], _ => []
  | c :: cs, false =>
      if c = sqChar then c :: querySkeleton cs true
      else c :: querySkeleton cs false
  | [c], true => if c = sqChar then [c] else []
  | c :: c2 :: cs2, true =>
      if c = sqChar then
        if c2 = sqChar then querySkeleton cs2 true
        else c :: querySkeleton (c2 :: cs2) false
      else querySkeleton (c2 :: cs2) true

/-- A row of the raw search-result table; the search page only displays it
and takes its length, so the cell list is left unstructured. -/
abbrev SearchRow : Type := List RawCell

/-- NASADataFetcher.search_planet_directly: sends searchQuery(search_term) to
the service; any exception (network failure, non-2xx status, unparseable
body) yields an empty DataFrame, and otherwise the parsed rows are returned
raw.  The service is modelled as a response oracle keyed by the query text. -/
def search_planet_directly (respond : String → ServiceResponse SearchRow)
    (search_term : String) : List SearchRow :=
  match respond (searchQuery search_term) with
  | .netError => []
  | .malformed => []
  | .parsed rows => rows

/-- What the Planet Search page shows for a search result. -/
inductive SearchDisplay where
  | found : Nat → SearchDisplay
  | noPlanetsFound : SearchDisplay
deriving DecidableEq

/-- The result branch of the Planet Search page: a non-empty result table is
announced with its row count, an empty one with the no-planets warning. -/
def planet_search_page (results : List SearchRow) : SearchDisplay :=
  if results.isEmpty then .noPlanetsFound else .found results.length

/-- Python re: match a pattern against a prefix of the text, case-folded
(re.IGNORECASE).  Models the fragment of the regular-expression language
consisting of literal characters and the any-character wildcard; patterns
using other regex metacharacters are outside the model. -/
def reMatchAt : List Char → List Char → Bool
  | [], _ => true
  | _ :: _, [] => false
  | p :: ps, c :: cs => (p == '.' || p.toLower == c.toLower) && reMatchAt ps cs

/-- Python re.search with re.IGNORECASE: the pattern matches at some
position of the text. -/
def reSearch (pat : List Char) : List Char → Bool
  | [] => reMatchAt pat []
  | c :: cs => reMatchAt pat (c :: cs) || reSearch pat cs

/-- pandas Series.str.contains(pat, case=False, na=False) on the pl_name
column: regex search (the pandas default regex=True) on present values,
False on NaN. -/
def strContainsCI (pat : String) : Option String → Bool
  | none => false
  | some s => reSearch pat.data s.data

/-- The Exoplanet Encyclopedia filter block: starting from a copy of the
snapshot, filter by discoverymethod.isin(methods) when the multiselect is
non-empty, then by pl_name.str.contains(search_planet, case=False, na=False)
when the search box is non-empty, then unconditionally by the discovery-year
range. -/
def encyclopedia_filter (df : List ExoRow) (methods : List String)
    (search_planet : String) (year_range : Int × Int) : List ExoRow :=
  let f1 :=
    if methods.isEmpty then df
    else df.filter (fun r =>
      match r.discoverymethod with
      | some m => methods.contains m
      | none => false)
  let f2 :=
    if search_planet.isEmpty then f1
    else f1.filter (fun r => strContainsCI search_planet r.pl_name)
  f2.filter (fun r => decide (year_range.1 ≤ r.disc_year) && decide (r.disc_year ≤ year_range.2))

/-- np.linspace(start, stop, num): num evenly spaced samples, endpoints
included. -/
noncomputable def npLinspace (start stop : ℝ) (num : Nat) : List ℝ :=
  (List.range num).map (fun i : Nat => start + (stop - start) * (i : ℝ) / ((num : ℝ) - 1))

/-- The flux formula of simulate_transit_light_curve (src/aess.py line 207),
as a function of the three slider values it reads and the time sample:
flux = 1 - transit_depth * np.exp(-(time - transit_center) * 2 /
(transit_duration / 4) * 2).  The grouping follows Python's left-associated
operators; note that the exponent argument is linear in the time offset (the
source multiplies by 2 where the documented formula squares). -/
noncomputable def fluxFun (planet_radius orbital_period star_radius : ℚ) (t : ℝ) : ℝ :=
  let transit_depth : ℝ := ((planet_radius : ℝ) / (star_radius : ℝ)) ^ 2
  let transit_center : ℝ := (orbital_period : ℝ) / 2
  let transit_duration : ℝ :=
    (orbital_period : ℝ) * (star_radius : ℝ) / (Real.pi * (planet_radius : ℝ))
  1 - transit_depth * Real.exp ((-(t - transit_center)) * 2 / (transit_duration / 4) * 2)

/-- Failure values of the simulation computation.  zeroDivisionError models
Python's ZeroDivisionError, raised by float division by zero.  domainError is
modelled from the spec: the DomainError of the specification's error
taxonomy (section 7) appears nowhere in the source, which defines no such
type; the constructor exists so that statements can compare the code's
behavior against the specified one. -/
inductive PyError where
  | zeroDivisionError : PyError
  | domainError : PyError
deriving DecidableEq

/-- The computation of simulate_transit_light_curve (src/aess.py lines
203-207) as a function of the five slider values: time = np.linspace(0,
orbital_period, 1000) paired with the flux at each sample.  The division
(planet_radius / star_radius) ** 2 raises ZeroDivisionError when star_radius
is zero, and the transit-duration division by (np.pi * planet_radius) raises
it when planet_radius is zero (pi is nonzero, so that denominator vanishes
exactly when planet_radius does); the checks appear in the source's
evaluation order.  impact_param and inclination are read from sliders but
never used by the computation. -/
noncomputable def simulate_transit_light_curve
    (planet_radius orbital_period star_radius _impact_param _inclination : ℚ) :
    Except PyError (List (ℝ × ℝ)) :=
  if star_radius = 0 then .error .zeroDivisionError
  else if planet_radius = 0 then .error .zeroDivisionError
  else .ok ((npLinspace 0 (orbital_period : ℝ) 1000).map
    (fun t => (t, fluxFun planet_radius orbital_period star_radius t)))

/-- The flux formula exactly as the specification writes it (section 4.6):
flux(t) = 1 - transitDepth * exp(-((t - transitCenter) * 2 /
(transitDuration / 4))^2), with the exponent argument squared. -/
noncomputable def specFlux (planetRadius orbitalPeriod starRadius : ℚ) (t : ℝ) : ℝ :=
  let transitDepth : ℝ := ((planetRadius : ℝ) / (starRadius : ℝ)) ^ 2
  let transitCenter : ℝ := (orbitalPeriod : ℝ) / 2
  let transitDuration : ℝ :=
    (orbitalPeriod : ℝ) * (starRadius : ℝ) / (Real.pi * (planetRadius : ℝ))
  1 - transitDepth * Real.exp (-(((t - transitCenter) * 2 / (transitDuration / 4)) ^ 2))

/-- Case-folded match of a plain pattern against a prefix of the text: the
spec-side notion, every pattern character taken literally. -/
def substrMatchAt : List Char → List Char → Bool
  | [], _ => true
  | _ :: _, [] => false
  | p :: ps, c :: cs => (p.toLower == c.toLower) && substrMatchAt ps cs

/-- Case-insensitive substring containment, the spec-side reading of "name
contains nameSubstring, case-insensitive". -/
def substrSearchCI (pat : List Char) : List Char → Bool
  | [] => substrMatchAt pat []
  | c :: cs => substrMatchAt pat (c :: cs) || substrSearchCI pat cs

/-- Spec-side record predicate of the Query/Filter Engine (section 4.5): a
record passes iff (methods empty OR its method is in methods) AND (text empty
OR its name contains the text case-insensitively) AND its year is in range.
Written from the specification's words, for comparison with
encyclopedia_filter. -/
def specPasses (methods : List String) (text : String) (year_range : Int × Int)
    (r : ExoRow) : Bool :=
  (methods.isEmpty ||
    (match r.discoverymethod with
     | some m => methods.contains m
     | none => false)) &&
  (text.isEmpty ||
    (match r.pl_name with
     | some s => substrSearchCI text.data s.data
     | none => false)) &&
  (decide (year_range.1 ≤ r.disc_year) && decide (r.disc_year ≤ year_range.2))

/-- Spec-side filter: exactly the records satisfying the conjunctive
predicate, in snapshot order.  Written from the specification's words. -/
def specFilter (df : List ExoRow) (methods : List String) (text : String)
    (year_range : Int × Int) : List ExoRow :=
  df.filter (specPasses methods text year_range)

/-- The regex metacharacters of Python's re module; a search term avoiding
all of them is a plain literal pattern.  The two brace characters are built
from their code points. -/
def reMetachars : List Char :=
  ['.', '^', '$', '*', '+', '?', Char.ofNat 123, Char.ofNat 125,
   '[', ']', '\\', '|', '(', ')']

/-- A raw row of the end-to-end scenario: well-formed Kepler-186f entry with
a parseable discovery year. -/
def rowKepler : RawRow :=
  { pl_name := some "Kepler-186f"
    hostname := some "Kepler-186"
    discoverymethod := some "Transit"
    disc_year := .str "2014"
    pl_orbper := .num 129.9
    pl_rade := .num 1.17
    pl_bmasse := .num 1.44
    pl_orbsmax := .missing
    st_teff := .missing
    st_rad := .missing
    st_mass := .missing
    sy_dist := .missing
    pl_eqt := .missing
    pl_insol := .missing }

/-- A raw row whose discovery year does not parse as a number but whose name
and host star are present. -/
def rowBadYear : RawRow :=
  { rowKepler with pl_name := some "Kepler-186g", disc_year := .str "not_a_number" }

/-- A raw row whose pl_name cell is a present but empty string (not NaN). -/
def rowEmptyName : RawRow :=
  { rowKepler with pl_name := some "" }

/-- C6: a raw row whose discovery_year fails numeric coercion but whose name
and host_star are present is retained by the normalizer, with its
discovery_year set to the current calendar year (the documented lossy
default); the output type makes every normalized discovery_year an integer. -/
theorem year_coercion_failure_defaults_to_current_year
    (currentYear : Int) (df : List RawRow) (r : RawRow) (hmem : r ∈ df)
    (hname : r.pl_name.isSome) (hhost : r.hostname.isSome)
    (hfail : toNumeric r.disc_year = none) :
    cleanRow currentYear r ∈ clean_data currentYear df ∧
      (cleanRow currentYear r).disc_year = currentYear := by
  constructor
  · unfold clean_data
    refine List.mem_filter.mpr ⟨List.mem_map_of_mem _ hmem, ?_⟩
    simp [cleanRow, hname, hhost]
  · simp [cleanRow, hfail]

/-- C6 witness: the spec's end-to-end scenario, a table of one good row and
one row with discovery_year "not_a_number". -/
theorem year_coercion_failure_defaults_to_current_year_witness :
    cleanRow 2025 rowBadYear ∈ clean_data 2025 [rowKepler, rowBadYear] ∧
      (cleanRow 2025 rowBadYear).disc_year = 2025 :=
  year_coercion_failure_defaults_to_current_year 2025 [rowKepler, rowBadYear]
    rowBadYear (List.mem_cons_of_mem _ (List.mem_cons_self _ _))
    (by decide) (by decide) (by decide)

/-- C5 counterexample: a raw row whose pl_name is a present but empty string
survives _clean_data with its empty name — pandas dropna removes only
missing (NaN) cells, so "any row whose name is empty is dropped" fails. -/
theorem empty_name_row_retained :
    (clean_data 2014 [rowEmptyName]).map ExoRow.pl_name = [some ""] := by decide

/-- C5 amended: every record output by the normalizer has a present
(non-NaN) pl_name and hostname; rows with a missing name or host star are
dropped.  Present-but-empty strings are not dropped, so non-emptiness holds
only under the CSV reader's convention of parsing empty fields as missing. -/
theorem clean_rows_have_present_name_host
    (currentYear : Int) (df : List RawRow) (r : ExoRow)
    (h : r ∈ clean_data currentYear df) :
    r.pl_name.isSome ∧ r.hostname.isSome := by
  unfold clean_data at h
  have h2 := (List.mem_filter.mp h).2
  simpa using h2

/-- C5 witness: the invariant evaluated on a concrete one-row table. -/
theorem clean_rows_have_present_name_host_witness :
    (cleanRow 2025 rowKepler).pl_name.isSome ∧ (cleanRow 2025 rowKepler).hostname.isSome :=
  clean_rows_have_present_name_host 2025 [rowKepler] (cleanRow 2025 rowKepler)
    (List.mem_filter.mpr ⟨List.mem_map_of_mem _ (List.mem_cons_self _ _), by decide⟩)

set_option maxRecDepth 8000 in
/-- C2: the search term is interpolated into the ADQL query verbatim, with no
sanitization: a term without metacharacters leaves the query's structure
outside string literals unchanged, but a term containing a single quote
breaks out of the LIKE literal and alters that structure. -/
theorem search_term_quote_alters_query_structure :
    querySkeleton (searchQuery "xy").data false = querySkeleton (searchQuery "").data false ∧
    querySkeleton (searchQuery ("x" ++ sq ++ "y")).data false ≠
      querySkeleton (searchQuery "").data false := by
  constructor
  · decide
  · decide

/-- C9: every client failure — network error or non-2xx status
(RequestException), a body pandas cannot parse, or a parsed response with
zero rows — makes fetch_exoplanet_data return the fallback sample table
instead of surfacing a crash, while a non-empty parsed response is
normalized by _clean_data. -/
theorem fetch_errors_fall_back_to_sample
    (currentYear : Int) (nv : Nat → Nat → ℚ) (rng : RngState)
    (rows : List RawRow) (hrows : rows ≠ []) :
    fetch_exoplanet_data currentYear nv rng .netError = (generate_sample_data nv rng).1 ∧
    fetch_exoplanet_data currentYear nv rng .malformed = (generate_sample_data nv rng).1 ∧
    fetch_exoplanet_data currentYear nv rng (.parsed []) = (generate_sample_data nv rng).1 ∧
    fetch_exoplanet_data currentYear nv rng (.parsed rows) = clean_data currentYear rows := by
  refine ⟨rfl, rfl, rfl, ?_⟩
  cases rows with
  | nil => exact absurd rfl hrows
  | cons a l => rfl

/-- C9 witness: the fallback policy evaluated at a concrete RNG model and a
concrete non-empty response. -/
theorem fetch_errors_fall_back_to_sample_witness :
    fetch_exoplanet_data 2025 (fun _ _ => 0) ⟨0, 0⟩ .netError =
      (generate_sample_data (fun _ _ => 0) ⟨0, 0⟩).1 ∧
    fetch_exoplanet_data 2025 (fun _ _ => 0) ⟨0, 0⟩ .malformed =
      (generate_sample_data (fun _ _ => 0) ⟨0, 0⟩).1 ∧
    fetch_exoplanet_data 2025 (fun _ _ => 0) ⟨0, 0⟩ (.parsed []) =
      (generate_sample_data (fun _ _ => 0) ⟨0, 0⟩).1 ∧
    fetch_exoplanet_data 2025 (fun _ _ => 0) ⟨0, 0⟩ (.parsed [rowKepler]) =
      clean_data 2025 [rowKepler] :=
  fetch_errors_fall_back_to_sample 2025 (fun _ _ => 0) ⟨0, 0⟩ [rowKepler] (by decide)

/-- C10: search_planet_directly never raises and never falls back to sample
data: every failure yields the empty table, which coincides with a
successful search returning zero rows, and the Planet Search page shows the
same no-planets warning for both; a non-empty result is shown with its row
count. -/
theorem search_failures_return_empty_table
    (search_term : String) (rows : List SearchRow) (hrows : rows ≠ []) :
    search_planet_directly (fun _ => .netError) search_term = [] ∧
    search_planet_directly (fun _ => .malformed) search_term = [] ∧
    search_planet_directly (fun _ => .parsed []) search_term = [] ∧
    planet_search_page (search_planet_directly (fun _ => .netError) search_term) =
      .noPlanetsFound ∧
    planet_search_page (search_planet_directly (fun _ => .parsed []) search_term) =
      .noPlanetsFound ∧
    planet_search_page (search_planet_directly (fun _ => .parsed rows) search_term) =
      .found rows.length := by
  refine ⟨rfl, rfl, rfl, rfl, rfl, ?_⟩
  cases rows with
  | nil => exact absurd rfl hrows
  | cons a l => rfl

/-- C10 witness: the search failure policy at a concrete term and result. -/
theorem search_failures_return_empty_table_witness :
    search_planet_directly (fun _ => .netError) "Kepler" = [] ∧
    search_planet_directly (fun _ => .malformed) "Kepler" = [] ∧
    search_planet_directly (fun _ => .parsed []) "Kepler" = [] ∧
    planet_search_page (search_planet_directly (fun _ => .netError) "Kepler") =
      .noPlanetsFound ∧
    planet_search_page (search_planet_directly (fun _ => .parsed []) "Kepler") =
      .noPlanetsFound ∧
    planet_search_page (search_planet_directly
      (fun _ => .parsed [[RawCell.str "Kepler-186f"]]) "Kepler") = .found 1 :=
  search_failures_return_empty_table "Kepler" [[RawCell.str "Kepler-186f"]] (by decide)

/-- C8: _generate_sample_data is deterministic within a process — the
np.random.seed(42) call discards the incoming generator state, so the
returned table does not depend on it — and the table always contains a
record with non-empty name and host star and a discovery year inside
[1990, currentYear + 1] (for any current year from 2016 on), at least two
distinct discovery methods, and at least two distinct discovery years. -/
theorem sample_data_deterministic_and_complete
    (nv : Nat → Nat → ℚ) (rng1 rng2 : RngState) (currentYear : Int)
    (hcy : 2016 ≤ currentYear) :
    (generate_sample_data nv rng1).1 = (generate_sample_data nv rng2).1 ∧
    (∃ r ∈ (generate_sample_data nv rng1).1,
      r.pl_name ≠ none ∧ r.pl_name ≠ some "" ∧ r.hostname ≠ none ∧ r.hostname ≠ some "" ∧
      1990 ≤ r.disc_year ∧ r.disc_year ≤ currentYear + 1) ∧
    (∃ a ∈ (generate_sample_data nv rng1).1, ∃ b ∈ (generate_sample_data nv rng1).1,
      a.discoverymethod ≠ b.discoverymethod) ∧
    (∃ a ∈ (generate_sample_data nv rng1).1, ∃ b ∈ (generate_sample_data nv rng1).1,
      a.disc_year ≠ b.disc_year) := by
  have hlen : (generate_sample_data nv rng1).1.length = 10 := rfl
  have h0 : (0 : Nat) < (generate_sample_data nv rng1).1.length := by rw [hlen]; norm_num
  have h3 : (3 : Nat) < (generate_sample_data nv rng1).1.length := by rw [hlen]; norm_num
  have h4 : (4 : Nat) < (generate_sample_data nv rng1).1.length := by rw [hlen]; norm_num
  have hname0 : ((generate_sample_data nv rng1).1.get ⟨0, h0⟩).pl_name =
    some "TRAPPIST-1e" := rfl
  have hhost0 : ((generate_sample_data nv rng1).1.get ⟨0, h0⟩).hostname =
    some "TRAPPIST-1" := rfl
  have hyear0 : ((generate_sample_data nv rng1).1.get ⟨0, h0⟩).disc_year = 2017 := rfl
  have hyear3 : ((generate_sample_data nv rng1).1.get ⟨3, h3⟩).disc_year = 2014 := rfl
  have hmeth0 : ((generate_sample_data nv rng1).1.get ⟨0, h0⟩).discoverymethod =
    some "Transit" := rfl
  have hmeth4 : ((generate_sample_data nv rng1).1.get ⟨4, h4⟩).discoverymethod =
    some "Radial Velocity" := rfl
  refine ⟨rfl, ?_, ?_, ?_⟩
  · refine ⟨_, List.get_mem _ 0 h0, ?_, ?_, ?_, ?_, ?_, ?_⟩
    · rw [hname0]; simp
    · rw [hname0]; simp
    · rw [hhost0]; simp
    · rw [hhost0]; simp
    · rw [hyear0]; norm_num
    · rw [hyear0]; omega
  · exact ⟨_, List.get_mem _ 0 h0, _, List.get_mem _ 4 h4, by rw [hmeth0, hmeth4]; simp⟩
  · exact ⟨_, List.get_mem _ 0 h0, _, List.get_mem _ 3 h3, by rw [hyear0, hyear3]; norm_num⟩

/-- C8 witness: the fallback provider evaluated at a concrete stream model,
two concrete generator states and the current year 2026. -/
theorem sample_data_deterministic_and_complete_witness :
    (generate_sample_data (fun _ _ => 0) ⟨7, 3⟩).1 =
      (generate_sample_data (fun _ _ => 0) ⟨0, 0⟩).1 ∧
    (∃ r ∈ (generate_sample_data (fun _ _ => 0) ⟨7, 3⟩).1,
      r.pl_name ≠ none ∧ r.pl_name ≠ some "" ∧ r.hostname ≠ none ∧ r.hostname ≠ some "" ∧
      1990 ≤ r.disc_year ∧ r.disc_year ≤ 2026 + 1) ∧
    (∃ a ∈ (generate_sample_data (fun _ _ => 0) ⟨7, 3⟩).1,
      ∃ b ∈ (generate_sample_data (fun _ _ => 0) ⟨7, 3⟩).1,
      a.discoverymethod ≠ b.discoverymethod) ∧
    (∃ a ∈ (generate_sample_data (fun _ _ => 0) ⟨7, 3⟩).1,
      ∃ b ∈ (generate_sample_data (fun _ _ => 0) ⟨7, 3⟩).1,
      a.disc_year ≠ b.disc_year) :=
  sample_data_deterministic_and_complete (fun _ _ => 0) ⟨7, 3⟩ ⟨0, 0⟩ 2026 (by norm_num)

/-- On patterns without the any-character wildcard, the regex prefix match
is the literal case-folded prefix match. -/
theorem reMatchAt_eq_of_no_dot :
    ∀ (pat : List Char), '.' ∉ pat → ∀ s, reMatchAt pat s = substrMatchAt pat s := by
  intro pat
  induction pat with
  | nil => intro _ s; rfl
  | cons p ps ih =>
    intro hp s
    cases s with
    | nil => rfl
    | cons c cs =>
      have hpd : p ≠ '.' := by
        intro h
        exact hp (by simp [h])
      have hps : ('.' : Char) ∉ ps := fun h => hp (List.mem_cons_of_mem _ h)
      simp only [reMatchAt, substrMatchAt, ih hps]
      rw [beq_eq_false_iff_ne.mpr hpd, Bool.false_or]

/-- On patterns without the any-character wildcard, regex search is
case-insensitive substring containment. -/
theorem reSearch_eq_of_no_dot (pat : List Char) (hp : '.' ∉ pat) :
    ∀ s, reSearch pat s = substrSearchCI pat s := by
  intro s
  induction s with
  | nil => simp only [reSearch, substrSearchCI, reMatchAt_eq_of_no_dot pat hp]
  | cons c cs ih =>
    simp only [reSearch, substrSearchCI, reMatchAt_eq_of_no_dot pat hp, ih]

/-- A one-row snapshot used to separate the filter's regex name predicate
from the spec's substring predicate. -/
def rowXyz : ExoRow :=
  { pl_name := some "xyz"
    hostname := some "host"
    discoverymethod := some "Transit"
    disc_year := 2000
    pl_orbper := none
    pl_rade := none
    pl_bmasse := none
    pl_orbsmax := none
    st_teff := none
    st_rad := none
    st_mass := none
    sy_dist := none
    pl_eqt := none
    pl_insol := none }

/-- C7 counterexample: with search text "." the Encyclopedia filter keeps the
record named "xyz" — pandas str.contains treats the text as a regular
expression (regex=True is the default), and the dot matches any character —
while the claim's case-insensitive-containment predicate rejects it, since
"xyz" does not contain a dot.  The filter therefore does not return exactly
the records satisfying the claim's three predicates. -/
theorem dot_search_term_regex_mismatch :
    encyclopedia_filter [rowXyz] [] "." (1990, 2030) = [rowXyz] ∧
    specFilter [rowXyz] [] "." (1990, 2030) = [] := by
  constructor
  · decide
  · decide

/-- C7 amended: for search texts free of regex metacharacters the name
predicate is case-insensitive substring containment and the Encyclopedia
filter block returns exactly the records of the snapshot satisfying the
three conjunctive predicates, in snapshot order; with all-default arguments
(no methods selected, empty search text, a year range covering every record)
it returns the snapshot unchanged, and on an empty snapshot it returns the
empty sequence.  For texts containing regex metacharacters the name
predicate is instead a regular-expression search. -/
theorem filter_conjunction_for_literal_terms
    (df : List ExoRow) (methods : List String) (text : String) (y0 y1 : Int)
    (hlit : ∀ c ∈ text.data, c ∉ reMetachars) :
    encyclopedia_filter df methods text (y0, y1) = specFilter df methods text (y0, y1) ∧
    ((∀ r ∈ df, y0 ≤ r.disc_year ∧ r.disc_year ≤ y1) →
      encyclopedia_filter df [] "" (y0, y1) = df) ∧
    encyclopedia_filter [] methods text (y0, y1) = [] := by
  have hdot : ('.' : Char) ∉ text.data := by
    intro h
    exact (hlit _ h) (by simp [reMetachars])
  refine ⟨?_, ?_, ?_⟩
  · by_cases hM : methods.isEmpty <;> by_cases hT : text.isEmpty <;>
      simp only [encyclopedia_filter, specFilter, hM, hT, if_true, if_false,
        Bool.false_eq_true, List.filter_filter] <;>
      (apply List.filter_congr; intro r _; cases hn : r.pl_name) <;>
      simp [specPasses, hM, hT, strContainsCI, hn,
        reSearch_eq_of_no_dot text.data hdot, Bool.and_comm, Bool.and_left_comm,
        Bool.and_assoc]
  · intro hpass
    simp only [encyclopedia_filter, List.isEmpty_nil, String.isEmpty_iff, if_true]
    exact List.filter_eq_self.mpr (fun r hr => by
      simp [(hpass r hr).1, (hpass r hr).2])
  · simp [encyclopedia_filter]

/-- C7 witness: the amended filter semantics at a concrete snapshot, method
set, metacharacter-free search text and year range. -/
theorem filter_conjunction_for_literal_terms_witness :
    (encyclopedia_filter [rowXyz] ["Transit"] "YZ" (1990, 2030) =
      specFilter [rowXyz] ["Transit"] "YZ" (1990, 2030)) ∧
    ((∀ r ∈ [rowXyz], 1990 ≤ r.disc_year ∧ r.disc_year ≤ 2030) →
      encyclopedia_filter [rowXyz] [] "" (1990, 2030) = [rowXyz]) ∧
    encyclopedia_filter [] ["Transit"] "YZ" (1990, 2030) = [] :=
  filter_conjunction_for_literal_terms [rowXyz] ["Transit"] "YZ" 1990 2030 (by decide)

/-- The code's flux at time 0 for the default slider values (planet radius
1, period 10, star radius 1): the linear exponent evaluates to 8 pi. -/
theorem fluxFun_at_zero : fluxFun 1 10 1 0 = 1 - Real.exp (8 * Real.pi) := by
  simp only [fluxFun]
  push_cast
  norm_num
  ring_nf
  rw [inv_inv]

/-- The code's flux at the transit center t = 5 for the default slider
values: the exponent vanishes and the flux equals 1 - transit_depth = 0. -/
theorem fluxFun_at_center : fluxFun 1 10 1 5 = 0 := by
  simp only [fluxFun]
  push_cast
  norm_num

/-- The spec formula's flux at time 0 for the default slider values: the
squared exponent evaluates to -(16 pi^2), so the flux is close to 1. -/
theorem specFlux_at_zero : specFlux 1 10 1 0 = 1 - Real.exp (-(16 * Real.pi ^ 2)) := by
  have hπ := Real.pi_ne_zero
  simp only [specFlux]
  push_cast
  norm_num
  field_simp
  ring

/-- The code's flux at time 0 is negative (about -8.2e10). -/
theorem fluxFun_zero_neg : fluxFun 1 10 1 0 < 0 := by
  rw [fluxFun_at_zero]
  have h1 : Real.exp 0 < Real.exp (8 * Real.pi) :=
    Real.exp_lt_exp.mpr (by positivity)
  rw [Real.exp_zero] at h1
  linarith

/-- Element lookup in np.linspace. -/
theorem npLinspace_getD (a b : ℝ) (n i : Nat) (h : i < n) (d : ℝ) :
    (npLinspace a b n).getD i d = a + (b - a) * i / ((n : ℝ) - 1) := by
  unfold npLinspace
  rw [List.getD_eq_getElem?_getD, List.getElem?_map, List.getElem?_range h]
  rfl

/-- C1: the source (line 207) computes flux = 1 - transit_depth *
exp(-(t - transit_center) * 2 / (transit_duration / 4) * 2), a LINEAR
exponent — the source multiplies by 2 where the spec formula squares — so at
the default slider values the code's flux at t = 0 is 1 - e^(8 pi), far
below the spec formula's value 1 - e^(-16 pi^2) of roughly 1; the claimed
Gaussian-shaped symmetric dip is not what the code computes. -/
theorem flux_formula_missing_square :
    fluxFun 1 10 1 0 = 1 - Real.exp (8 * Real.pi) ∧
    specFlux 1 10 1 0 = 1 - Real.exp (-(16 * Real.pi ^ 2)) ∧
    fluxFun 1 10 1 0 < specFlux 1 10 1 0 := by
  refine ⟨fluxFun_at_zero, specFlux_at_zero, ?_⟩
  rw [fluxFun_at_zero, specFlux_at_zero]
  have h1 : Real.exp (-(16 * Real.pi ^ 2)) < Real.exp (8 * Real.pi) :=
    Real.exp_lt_exp.mpr (by nlinarith [Real.pi_pos])
  linarith

/-- C3: calling the simulation computation with star radius 0 (the spec's
test input simulate(1.0, 10.0, 0.0, 0.3, 89.5)) or with planet radius 0
raises an unguarded ZeroDivisionError from the radius-ratio (respectively
transit-duration) division; no DomainError is produced — the source defines
no such guard, and the UI sliders bound both radii below by 0.1. -/
theorem zero_radius_zero_division_unguarded :
    simulate_transit_light_curve 1 10 0 (3/10) (179/2) =
      Except.error PyError.zeroDivisionError ∧
    simulate_transit_light_curve 0 10 1 (3/10) (179/2) =
      Except.error PyError.zeroDivisionError ∧
    PyError.zeroDivisionError ≠ PyError.domainError := by
  refine ⟨rfl, ?_, by decide⟩
  simp [simulate_transit_light_curve]

/-- C4: at the input (1.0, 10.0, 1.0, 0.3, 89.5) the simulation returns the
1000 samples of np.linspace(0, 10, 1000) paired with the code's flux, with
time[0] = 0 and time[999] = 10, and the flux at the transit center t = 5
equals 1 - (1/1)^2 = 0 as claimed; but that value is NOT the minimum of the
sequence: the sampled flux at t = 0 (the list's first element) is
1 - e^(8 pi) < 0, because the source's exponent is linear instead of
squared. -/
theorem simulate_shape_and_center_not_minimum :
    simulate_transit_light_curve 1 10 1 (3/10) (179/2) =
      Except.ok ((npLinspace 0 (10:ℝ) 1000).map (fun t => (t, fluxFun 1 10 1 t))) ∧
    (npLinspace 0 (10:ℝ) 1000).length = 1000 ∧
    (npLinspace 0 (10:ℝ) 1000).getD 0 0 = 0 ∧
    (npLinspace 0 (10:ℝ) 1000).getD 999 0 = 10 ∧
    fluxFun 1 10 1 5 = 0 ∧
    fluxFun 1 10 1 0 < fluxFun 1 10 1 5 := by
  refine ⟨?_, ?_, ?_, ?_, fluxFun_at_center, ?_⟩
  · simp [simulate_transit_light_curve]
  · simp only [npLinspace, List.length_map, List.length_range]
  · rw [npLinspace_getD 0 10 1000 0 (by norm_num) 0]
    norm_num
  · rw [npLinspace_getD 0 10 1000 999 (by norm_num) 0]
    norm_num
  · rw [fluxFun_at_center]
    exact fluxFun_zero_neg

end AESS
